import Mathlib

/-!
Verification of the training driver `train.py` of the waveglow repository.

The file shallowly embeds the control logic of the driver: checkpoint
load/save bookkeeping, the epoch/iteration loop with its checkpoint cadence,
the single/multi device loss reduction, the start-up device/rank validation,
the GPU statistics probe's parsing, and the evaluation-pass logging.

Opaque machine-learning state (model weights, optimizer moments) is
represented by `Nat` identifiers: the driver never inspects it, it only moves
it around.  Exact rational arithmetic (`ℚ`) stands in for Python's float
arithmetic where a division occurs; the truncating conversion `int(...)` on a
non-negative quotient is the rational floor.
-/

namespace Waveglow

/-- A checkpoint bundle, `train.py` lines 62-65: the serialized dictionary
holds the model blob, the iteration counter, the optimizer blob and the
learning rate. -/
structure Checkpoint where
  modelState : Nat
  iteration : Nat
  optimizerState : Nat
  learningRate : ℚ
  deriving Repr, DecidableEq

/-- The file system visible to the driver: a map from paths to the
checkpoint stored there, `none` when no file exists at the path
(`os.path.isfile` is false). -/
def FileSystem : Type := String → Option Checkpoint

/-- Message of the failed `assert os.path.isfile(checkpoint_path)`,
`train.py` line 47. -/
def assertIsFileMsg : String := "AssertionError: os.path.isfile(checkpoint_path)"

/-- `load_checkpoint(checkpoint_path, model, optimizer)`, `train.py`
lines 46-55.  Asserts the path exists, then loads the stored optimizer state
and model state in place and returns `(model, optimizer, iteration)`. -/
def load_checkpoint (fs : FileSystem) (checkpoint_path : String)
    (_model _optimizer : Nat) : Except String (Nat × Nat × Nat) :=
  match fs checkpoint_path with
  | none => .error assertIsFileMsg
  | some checkpoint_dict =>
      let iteration := checkpoint_dict.iteration
      let optimizer := checkpoint_dict.optimizerState
      let model := checkpoint_dict.modelState
      .ok (model, optimizer, iteration)

/-- The checkpoint write of one batch step, `train.py` lines 188-193:
`if (iteration % iters_per_checkpoint == 0): if rank == 0: save_checkpoint…`.
Returns the list of iteration indices for which a checkpoint file was
written during this step (empty or a singleton). -/
def checkpointWrites (rank iters_per_checkpoint iteration : Nat) : List Nat :=
  if iteration % iters_per_checkpoint = 0 then
    if rank = 0 then [iteration] else []
  else []

/-- Observable trace of a training run: the iteration index at the start of
each processed batch step (in order), the iteration indices at which a
checkpoint file was written (in order), and the final value of the
iteration counter. -/
structure RunTrace where
  processed : List Nat
  checkpoints : List Nat
  iteration : Nat
  deriving Repr, DecidableEq

/-! ### The evaluation pass logging, `train.py` lines 146-149 and 223-235 -/

/-- Message of the `NameError` hit when line 233 references a logger that was
never constructed. -/
def nameErrorLoggerEval : String := "NameError: name logger_eval is not defined"

/-- Lines 146-149 of `train.py`: the two `SummaryWriter` loggers exist only
when `with_tensorboard` is set and the rank is `0`; otherwise the names are
never bound. -/
def loggersFor (with_tensorboard : Bool) (rank : Nat) : Option Unit × Option Unit :=
  if with_tensorboard = true ∧ rank = 0 then (some (), some ()) else (none, none)

/-- Lines 228-235 of `train.py`: the audio-sample logging block at the end of
the evaluation pass.  It executes unconditionally (it sits outside the
`if with_tensorboard and rank == 0` guard of lines 223-226) and dereferences
`logger_eval`; when that logger was never constructed the reference fails. -/
def evalAudioLogging (logger_eval : Option Unit) : Except String Unit :=
  match logger_eval with
  | none => .error nameErrorLoggerEval
  | some _ => .ok ()

/-- The logging behaviour of one evaluation pass, `train.py` lines 198-235:
the mean-loss logging (lines 223-226) is guarded and cannot fail; the
audio-sample block (lines 228-235) runs regardless of the guard. -/
def evalPass (with_tensorboard : Bool) (rank : Nat) : Except String Unit :=
  evalAudioLogging (loggersFor with_tensorboard rank).2

/-! ### The training loop, `train.py` lines 151-235 -/

/-- The inner batch loop of one epoch, `train.py` lines 156-196, restricted
to its control effects: each of the `B` batches possibly writes a checkpoint
(lines 188-193) and then advances the iteration counter by one (line 195). -/
def runBatches (rank iters_per_checkpoint : Nat) : Nat → Nat → RunTrace
  | 0, iteration => ⟨[], [], iteration⟩
  | B + 1, iteration =>
      let rest := runBatches rank iters_per_checkpoint B (iteration + 1)
      ⟨iteration :: rest.processed,
       checkpointWrites rank iters_per_checkpoint iteration ++ rest.checkpoints,
       rest.iteration⟩

/-- The epoch loop `for epoch in range(epoch_offset, epochs)`, `train.py`
line 153, running `numEpochs = epochs - epoch_offset` epochs, threading the
iteration counter through.  Each epoch runs its `B` batches (lines 156-196)
and then the evaluation pass (lines 198-235); when the evaluation pass hits
the unguarded `logger_eval` reference its `NameError` propagates, aborting
the run with the trace accumulated so far (the outcome component carries the
error). -/
def runEpochs (with_tensorboard : Bool) (rank iters_per_checkpoint B : Nat) :
    Nat → Nat → RunTrace × Except String Unit
  | 0, iteration => (⟨[], [], iteration⟩, .ok ())
  | numEpochs + 1, iteration =>
      let first := runBatches rank iters_per_checkpoint B iteration
      match evalPass with_tensorboard rank with
      | .error e => (first, .error e)
      | .ok _ =>
          let rest := runEpochs with_tensorboard rank iters_per_checkpoint B
            numEpochs first.iteration
          (⟨first.processed ++ rest.1.processed,
            first.checkpoints ++ rest.1.checkpoints,
            rest.1.iteration⟩, rest.2)

/-- `epoch_offset = max(0, int(iteration / len(train_loader)))`, `train.py`
line 151.  `iteration` is a non-negative integer and `int(...)` truncates the
exact quotient, which for non-negative operands is natural floor division. -/
def epoch_offset (iteration B : Nat) : Nat :=
  max 0 (iteration / B)

/-- The control core of `train(...)`, `train.py` lines 81-235: resume from a
checkpoint when a path is given (lines 106-110, the counter restarts at the
stored iteration plus one), compute the epoch offset (line 151), and run the
remaining epochs with their evaluation passes (lines 153-235).  `B` is
`len(train_loader)`, the number of batches per epoch.  The outer `Except` is
the start-up assertion failure of `load_checkpoint`; a successful start-up
yields the run's trace together with its outcome: `.ok ()` when every epoch
and evaluation pass completed, or the evaluation pass's `NameError` when the
run aborted there.  The numeric ML parameters (learning rate, sigma, fp16)
do not affect this trace and are omitted; the fresh model and optimizer
built at lines 92-99 are the `0` blobs. -/
def train (fs : FileSystem) (_num_gpus rank : Nat) (epochs iters_per_checkpoint : Nat)
    (checkpoint_path : String) (B : Nat) (with_tensorboard : Bool) :
    Except String (RunTrace × Except String Unit) :=
  let iteration0 : Except String Nat :=
    if checkpoint_path = "" then .ok 0
    else
      match load_checkpoint fs checkpoint_path 0 0 with
      | .error e => .error e
      | .ok (_, _, iteration) => .ok (iteration + 1)
  match iteration0 with
  | .error e => .error e
  | .ok iteration =>
      .ok (runEpochs with_tensorboard rank iters_per_checkpoint B
        (epochs - epoch_offset iteration B) iteration)

/-- The per-batch loss reduction, `train.py` lines 165-168: on more than one
device the loss tensor is reduced across devices, otherwise the raw loss is
used unchanged.

Modelled from the spec: `reduce_tensor` lives in `distributed.py`, which is
not under `src/`; the spec describes it as averaging the per-device losses,
so it divides the summed loss by the device count. -/
def reduce_tensor (lossSum : ℚ) (num_gpus : Nat) : ℚ :=
  lossSum / num_gpus

/-- Lines 165-168 of `train.py`: the reported `reduced_loss`. -/
def reducedLoss (num_gpus : Nat) (loss : ℚ) : ℚ :=
  if num_gpus > 1 then reduce_tensor loss num_gpus else loss

/-- Message of the exception raised at `train.py` line 269. -/
def errSingleGpuRank : String := "Doing single GPU training on rank > 0"

/-- Lines 261-266 of `train.py`: `num_gpus = torch.cuda.device_count()`, then
the downgrade to one device when several devices are detected but no
distributed group name is given.  Returns the effective `num_gpus` together
with whether the downgrade warning was printed. -/
def effectiveNumGpus (device_count : Nat) (group_name : String) : Nat × Bool :=
  if device_count > 1 then
    if group_name = "" then (1, true) else (device_count, false)
  else (device_count, false)

/-- The `__main__` block of `train.py`, lines 261-273: compute the effective
device count, raise when a single-device run is requested with a non-zero
rank (lines 268-269), and otherwise call `train` (line 273).  The result
carries the warning flag, so an `.error` outcome means `train` was never
invoked — no training resource was allocated. -/
def mainEntry (fs : FileSystem) (device_count rank : Nat) (group_name : String)
    (epochs iters_per_checkpoint : Nat) (checkpoint_path : String) (B : Nat)
    (with_tensorboard : Bool) :
    Except String (Bool × (RunTrace × Except String Unit)) :=
  let ng := effectiveNumGpus device_count group_name
  if ng.1 = 1 ∧ rank ≠ 0 then .error errSingleGpuRank
  else (train fs ng.1 rank epochs iters_per_checkpoint checkpoint_path B
    with_tensorboard).map (fun r => (ng.2, r))

/-! ### The GPU statistics probe, `train.py` lines 68-78

The raw output of the external utility is modelled as the list of (ascii
decoded) characters of its standard output. -/

/-- Python's `str.split(chr(10))` on a character list: splits at every
newline; the result always has at least one element. -/
def splitLinesAux : List Char → List Char → List (List Char)
  | [], cur => [cur.reverse]
  | c :: cs, cur =>
      if c = '\n' then cur.reverse :: splitLinesAux cs []
      else splitLinesAux cs (c :: cur)

/-- Python's split on newlines, `x.decode(...).split(...)` at line 69. -/
def splitLines (s : List Char) : List (List Char) :=
  splitLinesAux s []

/-- Python's `str.split()` with no argument: splits on runs of whitespace and
drops empty fields. -/
def wsSplitAux : List Char → List Char → List (List Char)
  | [], cur => if cur = [] then [] else [cur.reverse]
  | c :: cs, cur =>
      if c.isWhitespace then
        if cur = [] then wsSplitAux cs []
        else cur.reverse :: wsSplitAux cs []
      else wsSplitAux cs (c :: cur)

/-- Python's `str.split()` on a character list. -/
def pySplit (s : List Char) : List (List Char) :=
  wsSplitAux s []

/-- Python's `int(...)` restricted to the non-negative decimal literals that
occur in the utility's output rows: all characters must be digits and the
string must be non-empty, otherwise a `ValueError` (`none`). -/
def pyIntAux : List Char → Nat → Option Nat
  | [], acc => some acc
  | c :: cs, acc =>
      if c.isDigit then pyIntAux cs (acc * 10 + (c.toNat - 48)) else none

/-- Python's `int(...)` on a token, see `pyIntAux`. -/
def pyInt : List Char → Option Nat
  | [] => none
  | c :: cs => pyIntAux (c :: cs) 0

/-- `get_gpu_stats()`, `train.py` lines 68-78, as a function of the external
utility's raw output.  `_output_to_list` splits the decoded output on
newlines and drops the last element (line 69); `[1:][0]` selects the first
data row after the header (line 73, `none` models the `IndexError` when the
row is missing); the row is whitespace-split and fields 0, 2 and 4 are parsed
as integers (lines 74-77); the memory percentage is the truncation of the
exact quotient `(memory_used / memory_total) * 100` (line 76, `none` models
the `ZeroDivisionError` when `memory_total` is zero). -/
def get_gpu_stats (raw : List Char) : Option (Nat × Nat) := do
  let lines := (splitLines raw).dropLast
  let row ← (lines.drop 1).head?
  let info := pySplit row
  let memory_used ← pyInt (← info.get? 0)
  let memory_total ← pyInt (← info.get? 2)
  if memory_total = 0 then none
  else
    let memory_used_pct := ⌊((memory_used : ℚ) / (memory_total : ℚ)) * 100⌋₊
    let utilization ← pyInt (← info.get? 4)
    pure (memory_used_pct, utilization)

/-! ### Helper lemmas about the loop embedding -/

theorem checkpointWrites_eq (rank ipc iteration : Nat) :
    checkpointWrites rank ipc iteration =
      if iteration % ipc = 0 ∧ rank = 0 then [iteration] else [] := by
  unfold checkpointWrites
  by_cases h1 : iteration % ipc = 0 <;> by_cases h2 : rank = 0 <;>
    simp [h1, h2]

theorem runBatches_iteration (rank ipc : Nat) :
    ∀ B iteration, (runBatches rank ipc B iteration).iteration = iteration + B := by
  intro B
  induction B with
  | zero => intro iteration; rfl
  | succ b ih =>
      intro iteration
      simp only [runBatches, ih]
      omega

theorem runBatches_processed (rank ipc : Nat) :
    ∀ B iteration,
      (runBatches rank ipc B iteration).processed = List.range' iteration B := by
  intro B
  induction B with
  | zero => intro iteration; rfl
  | succ b ih =>
      intro iteration
      simp only [runBatches, ih, List.range'_succ]

theorem runBatches_checkpoints (rank ipc : Nat) :
    ∀ B iteration,
      (runBatches rank ipc B iteration).checkpoints =
        (List.range' iteration B).filter
          (fun c => decide (c % ipc = 0 ∧ rank = 0)) := by
  intro B
  induction B with
  | zero => intro iteration; rfl
  | succ b ih =>
      intro iteration
      simp only [runBatches, ih, List.range'_succ, List.filter_cons,
        checkpointWrites_eq]
      by_cases h : iteration % ipc = 0 ∧ rank = 0 <;> simp [h]

theorem runBatches_eq (rank ipc B iteration : Nat) :
    runBatches rank ipc B iteration =
      ⟨List.range' iteration B,
        (List.range' iteration B).filter (fun c => decide (c % ipc = 0 ∧ rank = 0)),
        iteration + B⟩ := by
  calc runBatches rank ipc B iteration
      = ⟨(runBatches rank ipc B iteration).processed,
          (runBatches rank ipc B iteration).checkpoints,
          (runBatches rank ipc B iteration).iteration⟩ := rfl
    _ = _ := by
        rw [runBatches_processed, runBatches_checkpoints, runBatches_iteration]

theorem runEpochs_eval_ok (wtb : Bool) (rank : Nat)
    (hev : evalPass wtb rank = .ok ()) (ipc B : Nat) :
    ∀ e iteration, runEpochs wtb rank ipc B e iteration =
      (⟨List.range' iteration (e * B),
        (List.range' iteration (e * B)).filter
          (fun c => decide (c % ipc = 0 ∧ rank = 0)),
        iteration + e * B⟩, .ok ()) := by
  intro e
  induction e with
  | zero => intro iteration; simp [runEpochs]
  | succ n ih =>
      intro iteration
      simp only [runEpochs, hev, ih, runBatches_iteration, runBatches_processed,
        runBatches_checkpoints]
      rw [← List.filter_append, List.range'_append_1]
      have harith : B + n * B = (n + 1) * B := by ring
      have harith2 : iteration + B + n * B = iteration + (n + 1) * B := by ring
      simp [harith, harith2]
      have harith3 : n * B + B = (n + 1) * B := by ring
      rw [harith3]
      exact ⟨rfl, rfl⟩

theorem runEpochs_eval_error (wtb : Bool) (rank : Nat) (msg : String)
    (hev : evalPass wtb rank = .error msg) (ipc B e iteration : Nat) (he : 0 < e) :
    runEpochs wtb rank ipc B e iteration =
      (runBatches rank ipc B iteration, .error msg) := by
  obtain ⟨n, rfl⟩ : ∃ n, e = n + 1 := ⟨e - 1, by omega⟩
  simp [runEpochs, hev]

theorem runEpochs_trace (wtb : Bool) (rank ipc B e iteration : Nat) :
    ∃ k, k ≤ e ∧ (0 < e → 0 < k) ∧
      (runEpochs wtb rank ipc B e iteration).1 =
        ⟨List.range' iteration (k * B),
          (List.range' iteration (k * B)).filter
            (fun c => decide (c % ipc = 0 ∧ rank = 0)),
          iteration + k * B⟩ := by
  cases hev : evalPass wtb rank with
  | ok u =>
      cases u
      exact ⟨e, le_refl e, fun h => h,
        by rw [runEpochs_eval_ok wtb rank hev ipc B e iteration]⟩
  | error msg =>
      cases e with
      | zero => exact ⟨0, Nat.le_refl 0, fun h => absurd h (by omega), by simp [runEpochs]⟩
      | succ n =>
          refine ⟨1, by omega, fun _ => Nat.one_pos, ?_⟩
          rw [runEpochs_eval_error wtb rank msg hev ipc B (n + 1) iteration (by omega)]
          simp [runBatches_eq]

theorem train_of_fresh (fs : FileSystem) (num_gpus rank epochs ipc B : Nat)
    (wtb : Bool) :
    train fs num_gpus rank epochs ipc "" B wtb =
      .ok (runEpochs wtb rank ipc B epochs 0) := by
  simp [train, epoch_offset]

theorem train_of_resume (fs : FileSystem) (path : String) (C : Checkpoint)
    (num_gpus rank epochs ipc B : Nat) (wtb : Bool)
    (hpath : path ≠ "") (hfs : fs path = some C) :
    train fs num_gpus rank epochs ipc path B wtb =
      .ok (runEpochs wtb rank ipc B (epochs - epoch_offset (C.iteration + 1) B)
        (C.iteration + 1)) := by
  simp [train, load_checkpoint, hpath, hfs]

/-! ### Claim theorems -/

/-- Claim C1: after `load_checkpoint` returns the stored iteration, the loop
resumes with the next processed iteration equal to exactly the checkpoint's
iteration plus one, and no already-reached iteration index is repeated (every
processed index is at least `C.iteration + 1`).  This holds in every
configuration, also when the run later aborts in the evaluation pass: the
outcome component records how the run ended. -/
theorem resume_next_iteration (fs : FileSystem) (path : String) (C : Checkpoint)
    (num_gpus rank epochs ipc B : Nat) (wtb : Bool)
    (hpath : path ≠ "") (hfs : fs path = some C) (hB : 0 < B)
    (hepochs : epoch_offset (C.iteration + 1) B < epochs) :
    ∃ t outcome, train fs num_gpus rank epochs ipc path B wtb = .ok (t, outcome) ∧
      t.processed.head? = some (C.iteration + 1) ∧
      (∀ p ∈ t.processed, C.iteration + 1 ≤ p) ∧ t.processed.Nodup := by
  obtain ⟨k, hk, hkpos, htr⟩ := runEpochs_trace wtb rank ipc B
    (epochs - epoch_offset (C.iteration + 1) B) (C.iteration + 1)
  have hkp : 0 < k := hkpos (by omega)
  refine ⟨(runEpochs wtb rank ipc B (epochs - epoch_offset (C.iteration + 1) B)
      (C.iteration + 1)).1,
    (runEpochs wtb rank ipc B (epochs - epoch_offset (C.iteration + 1) B)
      (C.iteration + 1)).2,
    ?_, ?_, ?_, ?_⟩
  · rw [train_of_resume fs path C num_gpus rank epochs ipc B wtb hpath hfs]
  · rw [htr]
    have hne : k * B ≠ 0 := Nat.mul_ne_zero (by omega) (by omega)
    simp [List.head?_range', hne]
  · intro p hp
    rw [htr] at hp
    exact (List.mem_range'_1.mp hp).1
  · rw [htr]
    exact List.nodup_range' _ _

theorem resume_next_iteration_witness :
    ∃ t outcome,
      train (fun _ => some ⟨7, 5, 3, 1⟩) 1 0 10 1000 "ckpt" 2 false = .ok (t, outcome) ∧
      t.processed.head? = some 6 ∧ (∀ p ∈ t.processed, 6 ≤ p) ∧ t.processed.Nodup :=
  resume_next_iteration (fun _ => some ⟨7, 5, 3, 1⟩) "ckpt" ⟨7, 5, 3, 1⟩ 1 0 10 1000 2
    false (by decide) rfl (by decide) (by decide)

/-- Claim C2: during a training epoch, a checkpoint file is written at an
iteration if and only if that iteration is processed with
`iteration % iters_per_checkpoint = 0` and the process rank is `0`; for every
other (iteration, rank) combination no checkpoint write occurs. -/
theorem checkpoint_write_iff (rank ipc B startIter c : Nat) :
    c ∈ (runBatches rank ipc B startIter).checkpoints ↔
      c ∈ (runBatches rank ipc B startIter).processed ∧ c % ipc = 0 ∧ rank = 0 := by
  rw [runBatches_checkpoints, runBatches_processed, List.mem_filter]
  simp

/-- Claim C4: the epoch offset computed at start-up from a restored iteration
`I` and `B > 0` batches per epoch equals `⌊I / B⌋` (characterised by the two
floor inequalities) and is always non-negative. -/
theorem epoch_offset_floor (I B : Nat) (hB : 0 < B) :
    epoch_offset I B = I / B ∧ 0 ≤ epoch_offset I B ∧
      epoch_offset I B * B ≤ I ∧ I < (epoch_offset I B + 1) * B := by
  have h0 : epoch_offset I B = I / B := by simp [epoch_offset]
  refine ⟨h0, Nat.zero_le _, ?_, ?_⟩
  · rw [h0]
    exact Nat.div_mul_le_self I B
  · rw [h0]
    exact (Nat.div_lt_iff_lt_mul hB).mp (Nat.lt_succ_self (I / B))

theorem epoch_offset_floor_witness :
    epoch_offset 7 3 = 7 / 3 ∧ 0 ≤ epoch_offset 7 3 ∧
      epoch_offset 7 3 * 3 ≤ 7 ∧ 7 < (epoch_offset 7 3 + 1) * 3 :=
  epoch_offset_floor 7 3 (by decide)

/-- Claim C5: in a single-device run (`num_gpus = 1`) the reduced loss that is
reported equals the raw per-batch loss exactly, with no averaging applied. -/
theorem reduced_loss_single_device (loss : ℚ) : reducedLoss 1 loss = loss := by
  simp [reducedLoss]

/-- Claim C7: `load_checkpoint` fails with an assertion error exactly when the
path names no existing file, and on success returns the stored iteration after
loading the checkpoint's model and optimizer state. -/
theorem load_checkpoint_spec (fs : FileSystem) (path : String) (model optimizer : Nat) :
    (fs path = none → load_checkpoint fs path model optimizer = .error assertIsFileMsg) ∧
    ∀ C, fs path = some C →
      load_checkpoint fs path model optimizer =
        .ok (C.modelState, C.optimizerState, C.iteration) := by
  constructor
  · intro h
    simp [load_checkpoint, h]
  · intro C h
    simp [load_checkpoint, h]

theorem load_checkpoint_spec_witness :
    load_checkpoint (fun _ => none) "ckpt" 0 0 = .error assertIsFileMsg ∧
    load_checkpoint (fun _ => some ⟨11, 5, 22, 1⟩) "ckpt" 0 0 = .ok (11, 22, 5) :=
  ⟨(load_checkpoint_spec (fun _ => none) "ckpt" 0 0).1 rfl,
   (load_checkpoint_spec (fun _ => some ⟨11, 5, 22, 1⟩) "ckpt" 0 0).2 ⟨11, 5, 22, 1⟩ rfl⟩

/-- Claim C6: when exactly one compute device is in effect and the requested
rank is non-zero, the entry point raises a fatal error before training
starts: the outcome is the exception of line 269 and `train` is never
invoked. -/
theorem single_device_nonzero_rank_fatal (fs : FileSystem) (device_count rank : Nat)
    (group_name : String) (epochs ipc : Nat) (path : String) (B : Nat) (wtb : Bool)
    (hdc : device_count = 1) (hrank : rank ≠ 0) :
    mainEntry fs device_count rank group_name epochs ipc path B wtb =
      .error errSingleGpuRank := by
  subst hdc
  simp [mainEntry, effectiveNumGpus, hrank]

theorem single_device_nonzero_rank_fatal_witness :
    mainEntry (fun _ => none) 1 1 "" 2 1000 "" 2500 false = .error errSingleGpuRank :=
  single_device_nonzero_rank_fatal (fun _ => none) 1 1 "" 2 1000 "" 2500 false rfl
    (by decide)

/-- Claim C8 (counterexample): with more than one device detected and an
empty distributed group name, the program can still abort: at rank `1` the
downgrade to a single device makes the rank check of lines 268-269 raise, so
the run ends in the fatal rank error rather than continuing. -/
theorem multi_device_empty_group_counterexample :
    mainEntry (fun _ => none) 2 1 "" 1 1 "" 1 false = .error errSingleGpuRank := by
  rfl

/-- Claim C8 (amended): with more than one device detected, an empty
distributed group name and rank `0`, the program does not abort: it emits the
downgrade warning and continues in single-device mode (`num_gpus = 1`)
before training begins; with a non-zero rank the subsequent single-device
rank check aborts instead. -/
theorem multi_device_empty_group_fallback (fs : FileSystem) (device_count : Nat)
    (group_name : String) (epochs ipc : Nat) (path : String) (B : Nat) (wtb : Bool)
    (hdc : 1 < device_count) (hg : group_name = "") :
    mainEntry fs device_count 0 group_name epochs ipc path B wtb =
      (train fs 1 0 epochs ipc path B wtb).map (fun r => (true, r)) ∧
    (path = "" → ∃ r,
      mainEntry fs device_count 0 group_name epochs ipc path B wtb = .ok (true, r)) := by
  subst hg
  have h1 : mainEntry fs device_count 0 "" epochs ipc path B wtb =
      (train fs 1 0 epochs ipc path B wtb).map (fun r => (true, r)) := by
    simp [mainEntry, effectiveNumGpus, hdc]
  refine ⟨h1, ?_⟩
  intro hp
  subst hp
  rw [h1, train_of_fresh]
  exact ⟨_, rfl⟩

theorem multi_device_empty_group_fallback_witness :
    (mainEntry (fun _ => none) 2 0 "" 2 1000 "" 2500 true =
      (train (fun _ => none) 1 0 2 1000 "" 2500 true).map (fun r => (true, r))) ∧
    ("" = "" → ∃ r,
      mainEntry (fun _ => none) 2 0 "" 2 1000 "" 2500 true = .ok (true, r)) :=
  multi_device_empty_group_fallback (fun _ => none) 2 "" 2 1000 "" 2500 true
    (by decide) rfl

/-- Claim C9: `get_gpu_stats` parses the first data row of the utility's
output and returns the pair of integers (memory-used-percentage,
utilization-percentage), where the memory percentage is the integer
truncation of `(memory_used / memory_total) * 100`, i.e. the natural number
`memory_used * 100 / memory_total`. -/
theorem get_gpu_stats_parses_first_row (raw row : List Char)
    (f0 f1 f2 f3 f4 : List Char) (rest : List (List Char))
    (memory_used memory_total utilization : Nat)
    (hrow : ((splitLines raw).dropLast.drop 1).head? = some row)
    (hinfo : pySplit row = f0 :: f1 :: f2 :: f3 :: f4 :: rest)
    (h0 : pyInt f0 = some memory_used)
    (h2 : pyInt f2 = some memory_total)
    (h4 : pyInt f4 = some utilization)
    (hpos : 0 < memory_total) :
    get_gpu_stats raw = some (memory_used * 100 / memory_total, utilization) := by
  have hne : memory_total ≠ 0 := by omega
  have hfloor : ⌊((memory_used : ℚ) / (memory_total : ℚ)) * 100⌋₊ =
      memory_used * 100 / memory_total := by
    rw [div_mul_eq_mul_div,
      show ((memory_used : ℚ) * 100) = ((memory_used * 100 : ℕ) : ℚ) by push_cast; ring,
      Nat.floor_div_nat, Nat.floor_natCast]
  rw [List.head?_drop] at hrow
  simp [get_gpu_stats, hrow, hinfo, h0, h2, h4, hne, hfloor]

/-- Concrete output of the external utility used to exercise the probe. -/
def smiOutput : List Char :=
  ("memory.used [MiB], memory.total [MiB], utilization.gpu [%]\n" ++
    "345 MiB, 11441 MiB, 23 %\n").toList

theorem get_gpu_stats_parses_first_row_witness :
    get_gpu_stats smiOutput = some (345 * 100 / 11441, 23) :=
  get_gpu_stats_parses_first_row smiOutput ("345 MiB, 11441 MiB, 23 %".toList)
    ("345".toList) ("MiB,".toList) ("11441".toList) ("MiB,".toList) ("23".toList)
    ["%".toList] 345 11441 23 (by decide) (by decide) (by decide) (by decide)
    (by decide) (by decide)

/-- Claim C10: the end-of-epoch audio-sample logging executes regardless of
the tensorboard flag and the rank; whenever the run has `with_tensorboard`
false or a non-zero rank, the evaluation pass reaches the reference to the
never-constructed `logger_eval` and fails. -/
theorem eval_audio_logging_unguarded (with_tensorboard : Bool) (rank : Nat)
    (h : ¬ (with_tensorboard = true ∧ rank = 0)) :
    evalPass with_tensorboard rank = .error nameErrorLoggerEval := by
  simp only [evalPass, loggersFor, if_neg h]
  rfl

theorem eval_audio_logging_unguarded_witness :
    evalPass false 0 = .error nameErrorLoggerEval :=
  eval_audio_logging_unguarded false 0 (by decide)

end Waveglow
